import Mathlib

/-!
Shallow embedding of the weather agent in `src/weather/main.py`.

The repository's one source file defines:
  * a tool `get_weather(location, unit)` that issues one HTTP GET to the
    OpenWeatherMap current-weather endpoint and converts the JSON response
    into a summary string (or an error string);
  * a chainlit message handler `main` that maintains the per-session
    chat history and invokes the agent once per user message;
  * module-level validation of the two required environment secrets.

We embed the Python semantics that the code exercises:
  * JSON values (`Json`), with Python `str()` rendering (`pyStr`);
  * dict/sequence subscripting raising `KeyError` / `IndexError` /
    `TypeError`, and `.get` on a non-dict raising `AttributeError`
    (`jsub`, `jidx`, `jgetAttr`), in an `Except PyExc` monad;
  * `str.strip` / `str.title` for the location normalization (ASCII
    whitespace and ASCII letters; the repository only handles such input);
  * `requests` behavior: a call either fails at transport level with an
    exception whose text we carry, or yields a response with an HTTP
    status, a reason phrase, a final URL, and a parsed JSON body;
    `Response.raise_for_status` raises `HTTPError` exactly for statuses
    in [400, 600), with the message `requests` builds from status,
    reason and URL.  `HTTPError` is a `RequestException`, so it is caught
    by the tool's `except requests.RequestException` handler.

Numbers: the code does no arithmetic on the JSON numbers, it only formats
them, so a JSON number is embedded either as an integer (`jint`) or as a
non-integral number carried by its Python rendering (`jfloat "30.5"`).
The check `data.get("cod") != 200` therefore compares against `jint 200`.
-/

namespace WeatherAgent

/-- JSON values as produced by `response.json()`.  `jfloat` carries the
Python `str()` rendering of a non-integral number. -/
inductive Json where
  | jnull
  | jint (n : Int)
  | jfloat (render : String)
  | jstr (s : String)
  | jarr (elems : List Json)
  | jobj (fields : List (String × Json))

/-- The apostrophe character, used by Python `repr` of strings. -/
def squote : String := String.singleton (Char.ofNat 39)

mutual

/-- Python `repr()` of a JSON value (ASCII fragment: repr of a string is
the string between single quotes; escapes are not needed by this code). -/
def pyRepr : Json → String
  | .jnull => "None"
  | .jint n => toString n
  | .jfloat r => r
  | .jstr s => squote ++ s ++ squote
  | .jarr xs => "[" ++ pyReprList xs ++ "]"
  | .jobj fs => "\x7b" ++ pyReprFields fs ++ "\x7d"

/-- Comma-separated `repr` of list elements. -/
def pyReprList : List Json → String
  | [] => ""
  | [x] => pyRepr x
  | x :: xs => pyRepr x ++ ", " ++ pyReprList xs

/-- Comma-separated `repr` of dict entries. -/
def pyReprFields : List (String × Json) → String
  | [] => ""
  | [kv] => squote ++ kv.1 ++ squote ++ ": " ++ pyRepr kv.2
  | kv :: fs => squote ++ kv.1 ++ squote ++ ": " ++ pyRepr kv.2 ++ ", " ++ pyReprFields fs

end

/-- Python `str()` of a JSON value, as used by f-string interpolation. -/
def pyStr : Json → String
  | .jstr s => s
  | j => pyRepr j

/-- Python exceptions that the field accesses in `get_weather` can raise;
none of them is a `requests.RequestException`, so they escape the tool. -/
inductive PyExc where
  | keyError (key : String)
  | indexError
  | typeError
  | attributeError
  deriving DecidableEq, Repr

/-- Dictionary lookup (`dict.get(k)` semantics: `none` when absent). -/
def jlookup (fs : List (String × Json)) (k : String) : Option Json :=
  (fs.find? (fun kv => kv.1 == k)).map (fun kv => kv.2)

/-- Python subscript `obj[k]` with a string key: `KeyError` when the key is
absent, `TypeError` when the value is not a dict. -/
def jsub (j : Json) (k : String) : Except PyExc Json :=
  match j with
  | .jobj fs =>
    match jlookup fs k with
    | some v => Except.ok v
    | none => Except.error (PyExc.keyError k)
  | _ => Except.error PyExc.typeError

/-- Python subscript `obj[i]` with a non-negative integer index:
`IndexError` past the end, `TypeError` on a non-sequence. -/
def jidx (j : Json) (i : Nat) : Except PyExc Json :=
  match j with
  | .jarr xs =>
    match xs.get? i with
    | some v => Except.ok v
    | none => Except.error PyExc.indexError
  | .jstr s =>
    match s.data.get? i with
    | some c => Except.ok (Json.jstr (String.singleton c))
    | none => Except.error PyExc.indexError
  | _ => Except.error PyExc.typeError

/-- Python `obj.get(k)`: `AttributeError` when `obj` is not a dict. -/
def jgetAttr (j : Json) (k : String) : Except PyExc (Option Json) :=
  match j with
  | .jobj fs => Except.ok (jlookup fs k)
  | _ => Except.error PyExc.attributeError

/-- The test `data.get("cod") != 200` from the source, negated: a JSON
value equals the Python int `200` exactly when it is `jint 200`
(`jfloat` is reserved for non-integral numbers). -/
def codIs200 : Option Json → Bool
  | some (.jint 200) => true
  | _ => false

/-- Python ASCII whitespace, as stripped by `str.strip()`. -/
def isPySpace (c : Char) : Bool :=
  c == ' ' || c == '\t' || c == '\n' || c == '\r' || c == Char.ofNat 11 || c == Char.ofNat 12

/-- Python `str.strip()` (ASCII whitespace fragment). -/
def pyStrip (s : String) : String :=
  ⟨((s.data.dropWhile isPySpace).reverse.dropWhile isPySpace).reverse⟩

/-- Helper for `str.title()`: the flag records whether the previous
character was cased (an ASCII letter here). -/
def pyTitleAux : Bool → List Char → List Char
  | _, [] => []
  | prevCased, c :: cs =>
    if c.isAlpha then
      (if prevCased then c.toLower else c.toUpper) :: pyTitleAux true cs
    else
      c :: pyTitleAux false cs

/-- Python `str.title()` (ASCII fragment): the first letter of every
maximal run of letters is uppercased, the rest lowercased. -/
def pyTitle (s : String) : String :=
  ⟨pyTitleAux false s.data⟩

/-- `WEATHER_API_URL` from the source. -/
def WEATHER_API_URL : String := "https://api.openweathermap.org/data/2.5/weather"

/-- The HTTP request `requests.get(WEATHER_API_URL, params=params)` issues,
determined by the `params` dict built in `get_weather`. -/
structure HttpRequest where
  url : String
  q : String
  appid : String
  units : String
  deriving DecidableEq, Repr

/-- Source lines 47-53: `normalized_location = location.strip().title()`
and the `params` dict `{q, appid, units}`. -/
def weatherRequest (apiKey location unit : String) : HttpRequest :=
  { url := WEATHER_API_URL
    q := pyTitle (pyStrip location)
    appid := apiKey
    units := unit }

/-- The outbound requests issued by one invocation of `get_weather`: the
body contains exactly one `requests.get` call, executed once, before any
branching. -/
def weatherRequestsIssued (apiKey location unit : String) : List HttpRequest :=
  [weatherRequest apiKey location unit]

/-- Outcome of the `requests.get` call, as seen by `get_weather`:
either the request fails at transport level (`ConnectionError`,
`Timeout`, ...) with exception text `detail`, or a response arrives with
an HTTP status, reason phrase, final URL and parsed JSON body. -/
inductive HttpOutcome where
  | transportError (detail : String)
  | response (status : Nat) (reason : String) (url : String) (body : Json)

/-- The message `requests.Response.raise_for_status` puts into the
`HTTPError` it raises for a status in [400, 600). -/
def httpErrorMsg (status : Nat) (reason url : String) : String :=
  if 400 ≤ status ∧ status < 500 then
    toString status ++ " Client Error: " ++ reason ++ " for url: " ++ url
  else
    toString status ++ " Server Error: " ++ reason ++ " for url: " ++ url

/-- The fixed output template of the success path (the multi-line
f-string returned at source lines 73-81), associated to the right so that
each interpolated fragment heads its own suffix. -/
def renderWeather (name temp feels descr humidity speed pressure : Json) : String :=
  "Weather in " ++ (pyStr name ++ (":\n- Temperature: " ++ (pyStr temp ++ ("°C (feels like " ++
    (pyStr feels ++ ("°C)\n- Conditions: " ++ (pyStr descr ++ ("\n- Humidity: " ++
    (pyStr humidity ++ ("%\n- Wind speed: " ++ (pyStr speed ++ (" m/s\n- Pressure: " ++
    (pyStr pressure ++ " hPa\n\nStay tuned for personalized weather suggestions!")))))))))))))

/-- `get_weather(location, unit)` from the source, as a function of the
module-level `WEATHER_API_KEY` and of the outcome of its single HTTP call.
`Except.ok` is the returned string; `Except.error` is an uncaught Python
exception (only `requests.RequestException` is caught by the source). -/
def get_weather (apiKey location unit : String) (outcome : HttpOutcome) :
    Except PyExc String :=
  match outcome with
  | .transportError detail =>
    -- `except requests.RequestException as e: return f"Failed to fetch weather: {e}"`
    Except.ok ("Failed to fetch weather: " ++ detail)
  | .response status reason url body =>
    if 400 ≤ status ∧ status < 600 then
      -- `response.raise_for_status()` raises `HTTPError`, caught by the
      -- same `except requests.RequestException` handler.
      Except.ok ("Failed to fetch weather: " ++ httpErrorMsg status reason url)
    else
      match body with
      | .jobj fs =>
        if ! codIs200 (jlookup fs "cod") then
          Except.ok ("Error fetching weather: " ++
            pyStr ((jlookup fs "message").getD (Json.jstr "Unknown error")))
        else do
          -- WeatherInfo(...) keyword arguments, evaluated in source order.
          let mainObj ← jsub (Json.jobj fs) "main"
          let temp ← jsub mainObj "temp"
          let feels ← jsub mainObj "feels_like"
          let humidity ← jsub mainObj "humidity"
          let weatherArr ← jsub (Json.jobj fs) "weather"
          let weather0 ← jidx weatherArr 0
          let descr ← jsub weather0 "description"
          let windObj ← jsub (Json.jobj fs) "wind"
          let speed ← jsub windObj "speed"
          let pressure ← jsub mainObj "pressure"
          let name ← jsub (Json.jobj fs) "name"
          -- `visibility=data.get("visibility")` cannot raise on a dict.
          let _visibility := jlookup fs "visibility"
          -- `rain_1h=data.get("rain", {}).get("1h")`: the inner `.get`
          -- raises AttributeError when the rain value is not a dict.
          let _rain ← jgetAttr ((jlookup fs "rain").getD (Json.jobj [])) "1h"
          return renderWeather name temp feels descr humidity speed pressure
      | _ =>
        -- `data.get("cod")` on a non-dict body raises AttributeError.
        Except.error PyExc.attributeError

/-- Roles of a `ConversationTurn` in the chat history. -/
inductive Role where
  | user
  | assistant
  deriving DecidableEq, Repr

/-- One `{"role": ..., "content": ...}` entry of the chat history. -/
structure Turn where
  role : Role
  content : String
  deriving DecidableEq, Repr

/-- Outcome of `Runner.run_sync(agent, history, run_config=config)`:
either a reply text (`result.final_output`) or an exception whose
`str()` we carry. -/
inductive AgentOutcome where
  | success (text : String)
  | failure (errMsg : String)

/-- Observable effect of one execution of the `@cl.on_message` handler
`main`. -/
structure StepResult where
  /-- `cl.user_session` value of `"chat_history"` after the turn. -/
  stored : List Turn
  /-- Final content of the UI message (`msg.content` after the updates). -/
  visible : String
  /-- The history passed to `Runner.run_sync`. -/
  sentToAgent : List Turn

/-- The `main` message handler, source lines 126-149, as a function of the
stored history, the incoming message text, and the agent outcome.

`history = cl.user_session.get("chat_history") or []` makes two cases:
an empty stored history is falsy, so the handler works on a fresh list
and the session only sees it if `cl.user_session.set` runs (success
path); a non-empty stored history is the same list object, so the
in-place `history.append` of the user turn reaches the session even when
the `set` call is skipped (failure path). -/
def mainStep (stored : List Turn) (userMsg : String) (outcome : AgentOutcome) :
    StepResult :=
  let working := stored ++ [{ role := Role.user, content := userMsg }]
  match outcome with
  | .success text =>
    { stored := working ++ [{ role := Role.assistant, content := text }]
      visible := text
      sentToAgent := working }
  | .failure e =>
    { stored := if stored.isEmpty then stored else working
      visible := "Error: " ++ e
      sentToAgent := working }

/-- N consecutive successful turns from a given stored history: each
list entry is the pair (user message, agent reply). -/
def runSuccessTurns (stored : List Turn) (turns : List (String × String)) :
    List Turn :=
  turns.foldl (fun h p => (mainStep h p.1 (AgentOutcome.success p.2)).stored) stored

/-- Python truthiness of `os.getenv`: `None` and the empty string are
falsy. -/
def pyTruthy : Option String → Bool
  | none => false
  | some s => ! s.isEmpty

/-- Source lines 16-23: the module-level key validation.  `Except.error`
is the `ValueError` raised at import time. -/
def validateConfig (gemini weather : Option String) : Except String Unit :=
  if ! pyTruthy gemini then
    Except.error "GEMINI_API_KEY is missing in the .env file."
  else if ! pyTruthy weather then
    Except.error "WEATHER_API_KEY is missing in the .env file."
  else
    Except.ok ()

/-- The process state able to accept chat sessions: it exists only after
the module-level validation has passed, holding both keys. -/
structure AppReady where
  geminiKey : String
  weatherKey : String
  deriving DecidableEq, Repr

/-- Process startup: the module body runs the key validation before any
chainlit hook can be registered, so a session-accepting state is reached
only when both secrets are present. -/
def startup (gemini weather : Option String) : Except String AppReady :=
  match validateConfig gemini weather with
  | .error e => Except.error e
  | .ok _ => Except.ok { geminiKey := gemini.getD "", weatherKey := weather.getD "" }

/-- Substring test on character lists: `needle` occurs inside `hay`. -/
def subListOf (needle : List Char) : List Char → Bool
  | [] => needle.isEmpty
  | c :: cs => (List.isPrefixOf needle (c :: cs) || subListOf needle cs)

/-- `needle` occurs as a contiguous substring of `hay`. -/
def strContains (hay needle : String) : Bool :=
  subListOf needle.data hay.data

/-- `pre` is a prefix of `s`. -/
def strStartsWith (s pre : String) : Bool :=
  List.isPrefixOf pre.data s.data

/-- `suf` is a suffix of `s`. -/
def strEndsWith (s suf : String) : Bool :=
  List.isPrefixOf suf.data.reverse s.data.reverse

/-- Shape of the optional `rain` field under which
`data.get("rain", {}).get("1h")` cannot raise: absent, or a dict. -/
def rainShapeOk : Option Json → Bool
  | none => true
  | some (.jobj _) => true
  | _ => false

/-! ### String helper lemmas -/

theorem string_data_append (a b : String) : (a ++ b).data = a.data ++ b.data := by
  cases a; cases b; rfl

theorem isPrefixOf_append_self (p rest : List Char) :
    List.isPrefixOf p (p ++ rest) = true := by
  simp

theorem isPrefixOf_refl_list (p : List Char) : List.isPrefixOf p p = true := by
  simp

theorem isPrefixOf_extend (p x y : List Char) (h : List.isPrefixOf p x = true) :
    List.isPrefixOf p (x ++ y) = true := by
  simp at h ⊢
  exact h.trans (List.prefix_append x y)

theorem isPrefixOf_append_both (a b c : List Char) (h : List.isPrefixOf b c = true) :
    List.isPrefixOf (a ++ b) (a ++ c) = true := by
  simp at h ⊢
  obtain ⟨t, rfl⟩ := h
  exact ⟨t, by simp⟩

theorem subListOf_of_isPrefixOf (n hay : List Char)
    (hp : List.isPrefixOf n hay = true) : subListOf n hay = true := by
  cases hay with
  | nil =>
    cases n with
    | nil => rfl
    | cons c cs => simp [List.isPrefixOf] at hp
  | cons c cs =>
    unfold subListOf
    rw [hp]
    rfl

theorem subListOf_skip (a hay n : List Char) (h : subListOf n hay = true) :
    subListOf n (a ++ hay) = true := by
  induction a with
  | nil => simpa using h
  | cons c cs ih => simp [subListOf, ih]

theorem strStartsWith_append (pre rest : String) :
    strStartsWith (pre ++ rest) pre = true := by
  unfold strStartsWith
  rw [string_data_append]
  exact isPrefixOf_append_self _ _

theorem strContains_here (b c : String) : strContains (b ++ c) b = true := by
  unfold strContains
  rw [string_data_append]
  exact subListOf_of_isPrefixOf _ _ (isPrefixOf_append_self _ _)

theorem strContains_skip (a s n : String) (h : strContains s n = true) :
    strContains (a ++ s) n = true := by
  unfold strContains at h ⊢
  rw [string_data_append]
  exact subListOf_skip _ _ _ h

theorem strContains_head (lit rest n : String)
    (h : List.isPrefixOf n.data lit.data = true) :
    strContains (lit ++ rest) n = true := by
  unfold strContains
  rw [string_data_append]
  exact subListOf_of_isPrefixOf _ _ (isPrefixOf_extend _ _ _ h)

theorem strContains_glue (a lit rest n : String)
    (h : List.isPrefixOf n.data lit.data = true) :
    strContains (a ++ (lit ++ rest)) (a ++ n) = true := by
  unfold strContains
  rw [string_data_append, string_data_append, string_data_append]
  exact subListOf_of_isPrefixOf _ _
    (isPrefixOf_append_both _ _ _ (isPrefixOf_extend _ _ _ h))

theorem strEndsWith_skip (a s n : String) (h : strEndsWith s n = true) :
    strEndsWith (a ++ s) n = true := by
  unfold strEndsWith at h ⊢
  rw [string_data_append, List.reverse_append]
  exact isPrefixOf_extend _ _ _ h

/-! ### Behavior of the success path of `get_weather` -/

theorem rain_get_ok (o : Option Json) (h : rainShapeOk o = true) :
    ∃ r, jgetAttr (o.getD (Json.jobj [])) "1h" = Except.ok r := by
  cases o with
  | none => exact ⟨jlookup [] "1h", rfl⟩
  | some v =>
    cases v with
    | jobj rf => exact ⟨jlookup rf "1h", rfl⟩
    | jnull => simp [rainShapeOk] at h
    | jint n => simp [rainShapeOk] at h
    | jfloat r => simp [rainShapeOk] at h
    | jstr s => simp [rainShapeOk] at h
    | jarr xs => simp [rainShapeOk] at h

/-- On an HTTP-success response whose body has `cod = 200` and all the
fields the success path reads, `get_weather` returns the rendered
template. -/
theorem get_weather_success_eq
    (apiKey location unit reason url : String) (status : Nat)
    (fs mf wf windf : List (String × Json)) (ws : List Json)
    (temp feels humidity descr speed pressure name : Json)
    (hst : ¬ (400 ≤ status ∧ status < 600))
    (hcod : jlookup fs "cod" = some (Json.jint 200))
    (hmain : jlookup fs "main" = some (Json.jobj mf))
    (htemp : jlookup mf "temp" = some temp)
    (hfeels : jlookup mf "feels_like" = some feels)
    (hhum : jlookup mf "humidity" = some humidity)
    (hweather : jlookup fs "weather" = some (Json.jarr (Json.jobj wf :: ws)))
    (hdescr : jlookup wf "description" = some descr)
    (hwind : jlookup fs "wind" = some (Json.jobj windf))
    (hspeed : jlookup windf "speed" = some speed)
    (hpres : jlookup mf "pressure" = some pressure)
    (hname : jlookup fs "name" = some name)
    (hrain : rainShapeOk (jlookup fs "rain") = true) :
    get_weather apiKey location unit (.response status reason url (Json.jobj fs)) =
      Except.ok (renderWeather name temp feels descr humidity speed pressure) := by
  obtain ⟨r, hr⟩ := rain_get_ok _ hrain
  simp [get_weather, if_neg hst, jsub, jidx, hcod, hmain, htemp, hfeels, hhum,
    hweather, hdescr, hwind, hspeed, hpres, hname, hr, codIs200,
    Bind.bind, Except.bind, Pure.pure, Except.pure]

theorem renderWeather_ends_invitation (name temp feels descr humidity speed pressure : Json) :
    strEndsWith (renderWeather name temp feels descr humidity speed pressure)
      "Stay tuned for personalized weather suggestions!" = true := by
  unfold renderWeather
  apply strEndsWith_skip
  apply strEndsWith_skip
  apply strEndsWith_skip
  apply strEndsWith_skip
  apply strEndsWith_skip
  apply strEndsWith_skip
  apply strEndsWith_skip
  apply strEndsWith_skip
  apply strEndsWith_skip
  apply strEndsWith_skip
  apply strEndsWith_skip
  apply strEndsWith_skip
  apply strEndsWith_skip
  apply strEndsWith_skip
  decide

theorem renderWeather_contains_name (name temp feels descr humidity speed pressure : Json) :
    strContains (renderWeather name temp feels descr humidity speed pressure)
      (pyStr name) = true := by
  unfold renderWeather
  apply strContains_skip
  exact strContains_here _ _

theorem renderWeather_contains_temp (name temp feels descr humidity speed pressure : Json) :
    strContains (renderWeather name temp feels descr humidity speed pressure)
      (pyStr temp) = true := by
  unfold renderWeather
  apply strContains_skip
  apply strContains_skip
  apply strContains_skip
  exact strContains_here _ _

theorem renderWeather_contains_feels (name temp feels descr humidity speed pressure : Json) :
    strContains (renderWeather name temp feels descr humidity speed pressure)
      (pyStr feels) = true := by
  unfold renderWeather
  apply strContains_skip
  apply strContains_skip
  apply strContains_skip
  apply strContains_skip
  apply strContains_skip
  exact strContains_here _ _

theorem renderWeather_contains_descr (name temp feels descr humidity speed pressure : Json) :
    strContains (renderWeather name temp feels descr humidity speed pressure)
      (pyStr descr) = true := by
  unfold renderWeather
  apply strContains_skip
  apply strContains_skip
  apply strContains_skip
  apply strContains_skip
  apply strContains_skip
  apply strContains_skip
  apply strContains_skip
  exact strContains_here _ _

theorem renderWeather_contains_humidity_percent
    (name temp feels descr humidity speed pressure : Json) :
    strContains (renderWeather name temp feels descr humidity speed pressure)
      (pyStr humidity ++ "%") = true := by
  unfold renderWeather
  apply strContains_skip
  apply strContains_skip
  apply strContains_skip
  apply strContains_skip
  apply strContains_skip
  apply strContains_skip
  apply strContains_skip
  apply strContains_skip
  apply strContains_skip
  exact strContains_glue _ _ _ _ (by decide)

theorem renderWeather_contains_speed (name temp feels descr humidity speed pressure : Json) :
    strContains (renderWeather name temp feels descr humidity speed pressure)
      (pyStr speed) = true := by
  unfold renderWeather
  apply strContains_skip
  apply strContains_skip
  apply strContains_skip
  apply strContains_skip
  apply strContains_skip
  apply strContains_skip
  apply strContains_skip
  apply strContains_skip
  apply strContains_skip
  apply strContains_skip
  apply strContains_skip
  exact strContains_here _ _

theorem renderWeather_contains_pressure (name temp feels descr humidity speed pressure : Json) :
    strContains (renderWeather name temp feels descr humidity speed pressure)
      (pyStr pressure) = true := by
  unfold renderWeather
  apply strContains_skip
  apply strContains_skip
  apply strContains_skip
  apply strContains_skip
  apply strContains_skip
  apply strContains_skip
  apply strContains_skip
  apply strContains_skip
  apply strContains_skip
  apply strContains_skip
  apply strContains_skip
  apply strContains_skip
  apply strContains_skip
  exact strContains_here _ _

theorem renderWeather_contains_celsius (name temp feels descr humidity speed pressure : Json) :
    strContains (renderWeather name temp feels descr humidity speed pressure) "°C" = true := by
  unfold renderWeather
  apply strContains_skip
  apply strContains_skip
  apply strContains_skip
  apply strContains_skip
  exact strContains_head _ _ _ (by decide)

theorem renderWeather_contains_ms (name temp feels descr humidity speed pressure : Json) :
    strContains (renderWeather name temp feels descr humidity speed pressure) " m/s" = true := by
  unfold renderWeather
  apply strContains_skip
  apply strContains_skip
  apply strContains_skip
  apply strContains_skip
  apply strContains_skip
  apply strContains_skip
  apply strContains_skip
  apply strContains_skip
  apply strContains_skip
  apply strContains_skip
  apply strContains_skip
  apply strContains_skip
  exact strContains_head _ _ _ (by decide)

/-! ### Behavior of the chat-history handling -/

theorem runSuccessTurns_eq (ts : List (String × String)) (stored : List Turn) :
    runSuccessTurns stored ts =
      stored ++ ts.flatMap
        (fun p => [{ role := Role.user, content := p.1 },
                   { role := Role.assistant, content := p.2 }]) := by
  induction ts generalizing stored with
  | nil => simp [runSuccessTurns]
  | cons t ts ih =>
    have h1 : runSuccessTurns stored (t :: ts) =
        runSuccessTurns ((mainStep stored t.1 (AgentOutcome.success t.2)).stored) ts := rfl
    rw [h1, ih]
    simp [mainStep]

theorem flatMapTwo_length (ts : List (String × String)) :
    (ts.flatMap
      (fun p => ([{ role := Role.user, content := p.1 },
                  { role := Role.assistant, content := p.2 }] : List Turn))).length
      = 2 * ts.length := by
  induction ts with
  | nil => rfl
  | cons t ts ih =>
    simp only [List.flatMap_cons, List.length_append, List.length_cons, List.length_nil, ih]
    omega


/-! ### Claim theorems -/

/-- C1 (corrected): for a provider response whose HTTP status is outside
the 400-599 range and whose body is an object whose `cod` field is not
the integer 200, `get_weather` returns the string
`"Error fetching weather: "` followed by the body's `message` (or
`"Unknown error"` when absent) and never raises.  When the HTTP status
is in 400-599, `response.raise_for_status()` raises `HTTPError` first
and the tool returns `"Failed to fetch weather: ..."` instead, so the
claim as stated fails for such responses
(see `provider_error_http_status_counterexample`). -/
theorem provider_error_returns_string
    (apiKey location unit reason url : String) (status : Nat)
    (fs : List (String × Json))
    (hst : ¬ (400 ≤ status ∧ status < 600))
    (hcod : codIs200 (jlookup fs "cod") = false) :
    get_weather apiKey location unit (HttpOutcome.response status reason url (Json.jobj fs)) =
      Except.ok ("Error fetching weather: " ++
        pyStr ((jlookup fs "message").getD (Json.jstr "Unknown error"))) ∧
    strStartsWith
      ("Error fetching weather: " ++
        pyStr ((jlookup fs "message").getD (Json.jstr "Unknown error")))
      "Error fetching weather: " = true := by
  refine ⟨?_, strStartsWith_append _ _⟩
  simp [get_weather, if_neg hst, hcod]

/-- C1 witness: an HTTP 200 response with body
`{cod: 404, message: "city not found"}` yields exactly
`"Error fetching weather: city not found"`. -/
theorem provider_error_returns_string_witness :
    get_weather "key" "Zzzzz" "metric"
      (HttpOutcome.response 200 "OK" "https://api.openweathermap.org/data/2.5/weather"
        (Json.jobj [("cod", Json.jint 404), ("message", Json.jstr "city not found")])) =
      Except.ok "Error fetching weather: city not found" ∧
    strStartsWith "Error fetching weather: city not found" "Error fetching weather: " = true := by
  exact provider_error_returns_string "key" "Zzzzz" "metric" "OK"
    "https://api.openweathermap.org/data/2.5/weather" 200
    [("cod", Json.jint 404), ("message", Json.jstr "city not found")] (by decide) rfl

/-- C1 counterexample: the same body `{cod: 404, message: "city not found"}`
delivered with HTTP status 404 (as the provider actually sends it) is
routed through `raise_for_status` into the `"Failed to fetch weather: "`
branch, so the output does not start with `"Error fetching weather: "`
and is not the exact string the claim demands. -/
theorem provider_error_http_status_counterexample :
    get_weather "key" "Zzzzz" "metric"
      (HttpOutcome.response 404 "Not Found" "https://api.openweathermap.org/data/2.5/weather"
        (Json.jobj [("cod", Json.jint 404), ("message", Json.jstr "city not found")])) =
      Except.ok ("Failed to fetch weather: 404 Client Error: Not Found for url: " ++
        "https://api.openweathermap.org/data/2.5/weather") ∧
    strStartsWith
      ("Failed to fetch weather: 404 Client Error: Not Found for url: " ++
        "https://api.openweathermap.org/data/2.5/weather")
      "Error fetching weather: " = false := by
  exact ⟨rfl, by decide⟩

/-- C2: for every transport-level failure of the HTTP request,
`get_weather` returns the string `"Failed to fetch weather: "` followed
by the failure details, and never raises. -/
theorem transport_failure_returns_string (apiKey location unit detail : String) :
    get_weather apiKey location unit (HttpOutcome.transportError detail) =
      Except.ok ("Failed to fetch weather: " ++ detail) ∧
    strStartsWith ("Failed to fetch weather: " ++ detail) "Failed to fetch weather: " = true :=
  ⟨rfl, strStartsWith_append _ _⟩

/-- C3 (corrected): every invocation of `get_weather` issues exactly one
GET request to `WEATHER_API_URL`, with `appid` the configured key and
`units` the given unit, but `q` is the normalized location
`location.strip().title()`, not the raw location string. -/
theorem single_request_normalized_params (apiKey location unit : String) :
    weatherRequestsIssued apiKey location unit =
      [{ url := WEATHER_API_URL
         q := pyTitle (pyStrip location)
         appid := apiKey
         units := unit }] ∧
    (weatherRequestsIssued apiKey location unit).length = 1 :=
  ⟨rfl, rfl⟩

/-- C3 counterexample: for `location = "new york"` the single issued
request carries `q = "New York"`, not the given location string. -/
theorem request_q_not_raw_location :
    (weatherRequest "KEY" "new york" "metric").q ≠ "new york" ∧
    (weatherRequest "KEY" "new york" "metric").q = "New York" ∧
    weatherRequestsIssued "KEY" "new york" "metric" =
      [{ url := "https://api.openweathermap.org/data/2.5/weather"
         q := "New York"
         appid := "KEY"
         units := "metric" }] := by
  refine ⟨by decide, by decide, by decide⟩

/-- C4 (corrected): for every provider response whose HTTP status is
outside 400-599, whose `cod` field equals 200, and in which every field
the success path reads is present (with the optional `rain` field absent
or an object), `get_weather` returns the fixed template produced by
`renderWeather`, which contains the location name, temperature,
feels-like temperature, description, humidity (followed by `%`), wind
speed and pressure, and ends with the invitation line.  An HTTP status
in 400-599 defeats the claim as stated even with `cod = 200`
(see `success_cod200_http500_counterexample`). -/
theorem success_response_renders_template
    (apiKey location unit reason url : String) (status : Nat)
    (fs mf wf windf : List (String × Json)) (ws : List Json)
    (temp feels humidity descr speed pressure name : Json)
    (hst : ¬ (400 ≤ status ∧ status < 600))
    (hcod : jlookup fs "cod" = some (Json.jint 200))
    (hmain : jlookup fs "main" = some (Json.jobj mf))
    (htemp : jlookup mf "temp" = some temp)
    (hfeels : jlookup mf "feels_like" = some feels)
    (hhum : jlookup mf "humidity" = some humidity)
    (hweather : jlookup fs "weather" = some (Json.jarr (Json.jobj wf :: ws)))
    (hdescr : jlookup wf "description" = some descr)
    (hwind : jlookup fs "wind" = some (Json.jobj windf))
    (hspeed : jlookup windf "speed" = some speed)
    (hpres : jlookup mf "pressure" = some pressure)
    (hname : jlookup fs "name" = some name)
    (hrain : rainShapeOk (jlookup fs "rain") = true) :
    get_weather apiKey location unit (HttpOutcome.response status reason url (Json.jobj fs)) =
      Except.ok (renderWeather name temp feels descr humidity speed pressure) ∧
    strEndsWith (renderWeather name temp feels descr humidity speed pressure)
      "Stay tuned for personalized weather suggestions!" = true ∧
    strContains (renderWeather name temp feels descr humidity speed pressure)
      (pyStr name) = true ∧
    strContains (renderWeather name temp feels descr humidity speed pressure)
      (pyStr temp) = true ∧
    strContains (renderWeather name temp feels descr humidity speed pressure)
      (pyStr feels) = true ∧
    strContains (renderWeather name temp feels descr humidity speed pressure)
      (pyStr descr) = true ∧
    strContains (renderWeather name temp feels descr humidity speed pressure)
      (pyStr humidity ++ "%") = true ∧
    strContains (renderWeather name temp feels descr humidity speed pressure)
      (pyStr speed) = true ∧
    strContains (renderWeather name temp feels descr humidity speed pressure)
      (pyStr pressure) = true :=
  ⟨get_weather_success_eq apiKey location unit reason url status fs mf wf windf ws
      temp feels humidity descr speed pressure name
      hst hcod hmain htemp hfeels hhum hweather hdescr hwind hspeed hpres hname hrain,
    renderWeather_ends_invitation name temp feels descr humidity speed pressure,
    renderWeather_contains_name name temp feels descr humidity speed pressure,
    renderWeather_contains_temp name temp feels descr humidity speed pressure,
    renderWeather_contains_feels name temp feels descr humidity speed pressure,
    renderWeather_contains_descr name temp feels descr humidity speed pressure,
    renderWeather_contains_humidity_percent name temp feels descr humidity speed pressure,
    renderWeather_contains_speed name temp feels descr humidity speed pressure,
    renderWeather_contains_pressure name temp feels descr humidity speed pressure⟩

/-- C4 witness: the Karachi scenario response renders the template, whose
text contains "Karachi", "clear sky", "30.5", "33.0", "40%", "3.1" and
"1008" and ends with the invitation line. -/
theorem success_response_renders_template_witness :
    get_weather "key" "Karachi" "metric"
      (HttpOutcome.response 200 "OK" "https://api.openweathermap.org/data/2.5/weather"
        (Json.jobj [("cod", Json.jint 200),
          ("weather", Json.jarr [Json.jobj [("description", Json.jstr "clear sky")]]),
          ("main", Json.jobj [("temp", Json.jfloat "30.5"), ("feels_like", Json.jfloat "33.0"),
            ("humidity", Json.jint 40), ("pressure", Json.jint 1008)]),
          ("wind", Json.jobj [("speed", Json.jfloat "3.1")]),
          ("name", Json.jstr "Karachi")])) =
      Except.ok ("Weather in Karachi:\n- Temperature: 30.5°C (feels like 33.0°C)\n" ++
        "- Conditions: clear sky\n- Humidity: 40%\n- Wind speed: 3.1 m/s\n" ++
        "- Pressure: 1008 hPa\n\nStay tuned for personalized weather suggestions!") ∧
    strEndsWith ("Weather in Karachi:\n- Temperature: 30.5°C (feels like 33.0°C)\n" ++
        "- Conditions: clear sky\n- Humidity: 40%\n- Wind speed: 3.1 m/s\n" ++
        "- Pressure: 1008 hPa\n\nStay tuned for personalized weather suggestions!")
      "Stay tuned for personalized weather suggestions!" = true ∧
    strContains ("Weather in Karachi:\n- Temperature: 30.5°C (feels like 33.0°C)\n" ++
        "- Conditions: clear sky\n- Humidity: 40%\n- Wind speed: 3.1 m/s\n" ++
        "- Pressure: 1008 hPa\n\nStay tuned for personalized weather suggestions!")
      "Karachi" = true ∧
    strContains ("Weather in Karachi:\n- Temperature: 30.5°C (feels like 33.0°C)\n" ++
        "- Conditions: clear sky\n- Humidity: 40%\n- Wind speed: 3.1 m/s\n" ++
        "- Pressure: 1008 hPa\n\nStay tuned for personalized weather suggestions!")
      "30.5" = true ∧
    strContains ("Weather in Karachi:\n- Temperature: 30.5°C (feels like 33.0°C)\n" ++
        "- Conditions: clear sky\n- Humidity: 40%\n- Wind speed: 3.1 m/s\n" ++
        "- Pressure: 1008 hPa\n\nStay tuned for personalized weather suggestions!")
      "33.0" = true ∧
    strContains ("Weather in Karachi:\n- Temperature: 30.5°C (feels like 33.0°C)\n" ++
        "- Conditions: clear sky\n- Humidity: 40%\n- Wind speed: 3.1 m/s\n" ++
        "- Pressure: 1008 hPa\n\nStay tuned for personalized weather suggestions!")
      "clear sky" = true ∧
    strContains ("Weather in Karachi:\n- Temperature: 30.5°C (feels like 33.0°C)\n" ++
        "- Conditions: clear sky\n- Humidity: 40%\n- Wind speed: 3.1 m/s\n" ++
        "- Pressure: 1008 hPa\n\nStay tuned for personalized weather suggestions!")
      "40%" = true ∧
    strContains ("Weather in Karachi:\n- Temperature: 30.5°C (feels like 33.0°C)\n" ++
        "- Conditions: clear sky\n- Humidity: 40%\n- Wind speed: 3.1 m/s\n" ++
        "- Pressure: 1008 hPa\n\nStay tuned for personalized weather suggestions!")
      "3.1" = true ∧
    strContains ("Weather in Karachi:\n- Temperature: 30.5°C (feels like 33.0°C)\n" ++
        "- Conditions: clear sky\n- Humidity: 40%\n- Wind speed: 3.1 m/s\n" ++
        "- Pressure: 1008 hPa\n\nStay tuned for personalized weather suggestions!")
      "1008" = true := by
  exact success_response_renders_template "key" "Karachi" "metric" "OK"
    "https://api.openweathermap.org/data/2.5/weather" 200
    [("cod", Json.jint 200),
      ("weather", Json.jarr [Json.jobj [("description", Json.jstr "clear sky")]]),
      ("main", Json.jobj [("temp", Json.jfloat "30.5"), ("feels_like", Json.jfloat "33.0"),
        ("humidity", Json.jint 40), ("pressure", Json.jint 1008)]),
      ("wind", Json.jobj [("speed", Json.jfloat "3.1")]),
      ("name", Json.jstr "Karachi")]
    [("temp", Json.jfloat "30.5"), ("feels_like", Json.jfloat "33.0"),
      ("humidity", Json.jint 40), ("pressure", Json.jint 1008)]
    [("description", Json.jstr "clear sky")]
    [("speed", Json.jfloat "3.1")]
    []
    (Json.jfloat "30.5") (Json.jfloat "33.0") (Json.jint 40) (Json.jstr "clear sky")
    (Json.jfloat "3.1") (Json.jint 1008) (Json.jstr "Karachi")
    (by decide) rfl rfl rfl rfl rfl rfl rfl rfl rfl rfl rfl rfl

/-- C4 counterexample: a response with `cod = 200` and every required
field present, but HTTP status 500, is mapped to the transport-failure
string, not the template. -/
theorem success_cod200_http500_counterexample :
    get_weather "key" "Karachi" "metric"
      (HttpOutcome.response 500 "Internal Server Error" "u"
        (Json.jobj [("cod", Json.jint 200),
          ("weather", Json.jarr [Json.jobj [("description", Json.jstr "clear sky")]]),
          ("main", Json.jobj [("temp", Json.jfloat "30.5"), ("feels_like", Json.jfloat "33.0"),
            ("humidity", Json.jint 40), ("pressure", Json.jint 1008)]),
          ("wind", Json.jobj [("speed", Json.jfloat "3.1")]),
          ("name", Json.jstr "Karachi")])) =
      Except.ok "Failed to fetch weather: 500 Server Error: Internal Server Error for url: u" ∧
    strEndsWith "Failed to fetch weather: 500 Server Error: Internal Server Error for url: u"
      "Stay tuned for personalized weather suggestions!" = false ∧
    strContains "Failed to fetch weather: 500 Server Error: Internal Server Error for url: u"
      "Karachi" = false :=
  ⟨rfl, by decide, by decide⟩

/-- C5 (corrected): for all `(location, unit)` pairs with `unit` metric or
imperial and a success response, the output contains the location name,
the description, and the numeric temperature exactly as the provider
returned it, but the unit labels are always the metric ones (`°C`,
`m/s`) regardless of the requested unit system, so the labels do not
correspond to the imperial system
(see `imperial_unit_metric_labels_counterexample`). -/
theorem output_fields_and_fixed_unit_labels
    (apiKey location unit reason url : String) (status : Nat)
    (fs mf wf windf : List (String × Json)) (ws : List Json)
    (temp feels humidity descr speed pressure name : Json)
    (hunit : unit = "metric" ∨ unit = "imperial")
    (hst : ¬ (400 ≤ status ∧ status < 600))
    (hcod : jlookup fs "cod" = some (Json.jint 200))
    (hmain : jlookup fs "main" = some (Json.jobj mf))
    (htemp : jlookup mf "temp" = some temp)
    (hfeels : jlookup mf "feels_like" = some feels)
    (hhum : jlookup mf "humidity" = some humidity)
    (hweather : jlookup fs "weather" = some (Json.jarr (Json.jobj wf :: ws)))
    (hdescr : jlookup wf "description" = some descr)
    (hwind : jlookup fs "wind" = some (Json.jobj windf))
    (hspeed : jlookup windf "speed" = some speed)
    (hpres : jlookup mf "pressure" = some pressure)
    (hname : jlookup fs "name" = some name)
    (hrain : rainShapeOk (jlookup fs "rain") = true) :
    get_weather apiKey location unit (HttpOutcome.response status reason url (Json.jobj fs)) =
      Except.ok (renderWeather name temp feels descr humidity speed pressure) ∧
    strContains (renderWeather name temp feels descr humidity speed pressure)
      (pyStr name) = true ∧
    strContains (renderWeather name temp feels descr humidity speed pressure)
      (pyStr descr) = true ∧
    strContains (renderWeather name temp feels descr humidity speed pressure)
      (pyStr temp) = true ∧
    strContains (renderWeather name temp feels descr humidity speed pressure)
      "°C" = true ∧
    strContains (renderWeather name temp feels descr humidity speed pressure)
      " m/s" = true :=
  ⟨get_weather_success_eq apiKey location unit reason url status fs mf wf windf ws
      temp feels humidity descr speed pressure name
      hst hcod hmain htemp hfeels hhum hweather hdescr hwind hspeed hpres hname hrain,
    renderWeather_contains_name name temp feels descr humidity speed pressure,
    renderWeather_contains_descr name temp feels descr humidity speed pressure,
    renderWeather_contains_temp name temp feels descr humidity speed pressure,
    renderWeather_contains_celsius name temp feels descr humidity speed pressure,
    renderWeather_contains_ms name temp feels descr humidity speed pressure⟩

/-- C5 witness: a metric request over the Karachi response contains the
name, description, temperature, and the metric labels. -/
theorem output_fields_and_fixed_unit_labels_witness :
    get_weather "key" "Karachi" "metric"
      (HttpOutcome.response 200 "OK" "u"
        (Json.jobj [("cod", Json.jint 200),
          ("weather", Json.jarr [Json.jobj [("description", Json.jstr "clear sky")]]),
          ("main", Json.jobj [("temp", Json.jfloat "30.5"), ("feels_like", Json.jfloat "33.0"),
            ("humidity", Json.jint 40), ("pressure", Json.jint 1008)]),
          ("wind", Json.jobj [("speed", Json.jfloat "3.1")]),
          ("name", Json.jstr "Karachi")])) =
      Except.ok ("Weather in Karachi:\n- Temperature: 30.5°C (feels like 33.0°C)\n" ++
        "- Conditions: clear sky\n- Humidity: 40%\n- Wind speed: 3.1 m/s\n" ++
        "- Pressure: 1008 hPa\n\nStay tuned for personalized weather suggestions!") ∧
    strContains ("Weather in Karachi:\n- Temperature: 30.5°C (feels like 33.0°C)\n" ++
        "- Conditions: clear sky\n- Humidity: 40%\n- Wind speed: 3.1 m/s\n" ++
        "- Pressure: 1008 hPa\n\nStay tuned for personalized weather suggestions!")
      "Karachi" = true ∧
    strContains ("Weather in Karachi:\n- Temperature: 30.5°C (feels like 33.0°C)\n" ++
        "- Conditions: clear sky\n- Humidity: 40%\n- Wind speed: 3.1 m/s\n" ++
        "- Pressure: 1008 hPa\n\nStay tuned for personalized weather suggestions!")
      "clear sky" = true ∧
    strContains ("Weather in Karachi:\n- Temperature: 30.5°C (feels like 33.0°C)\n" ++
        "- Conditions: clear sky\n- Humidity: 40%\n- Wind speed: 3.1 m/s\n" ++
        "- Pressure: 1008 hPa\n\nStay tuned for personalized weather suggestions!")
      "30.5" = true ∧
    strContains ("Weather in Karachi:\n- Temperature: 30.5°C (feels like 33.0°C)\n" ++
        "- Conditions: clear sky\n- Humidity: 40%\n- Wind speed: 3.1 m/s\n" ++
        "- Pressure: 1008 hPa\n\nStay tuned for personalized weather suggestions!")
      "°C" = true ∧
    strContains ("Weather in Karachi:\n- Temperature: 30.5°C (feels like 33.0°C)\n" ++
        "- Conditions: clear sky\n- Humidity: 40%\n- Wind speed: 3.1 m/s\n" ++
        "- Pressure: 1008 hPa\n\nStay tuned for personalized weather suggestions!")
      " m/s" = true := by
  exact output_fields_and_fixed_unit_labels "key" "Karachi" "metric" "OK" "u" 200
    [("cod", Json.jint 200),
      ("weather", Json.jarr [Json.jobj [("description", Json.jstr "clear sky")]]),
      ("main", Json.jobj [("temp", Json.jfloat "30.5"), ("feels_like", Json.jfloat "33.0"),
        ("humidity", Json.jint 40), ("pressure", Json.jint 1008)]),
      ("wind", Json.jobj [("speed", Json.jfloat "3.1")]),
      ("name", Json.jstr "Karachi")]
    [("temp", Json.jfloat "30.5"), ("feels_like", Json.jfloat "33.0"),
      ("humidity", Json.jint 40), ("pressure", Json.jint 1008)]
    [("description", Json.jstr "clear sky")]
    [("speed", Json.jfloat "3.1")]
    []
    (Json.jfloat "30.5") (Json.jfloat "33.0") (Json.jint 40) (Json.jstr "clear sky")
    (Json.jfloat "3.1") (Json.jint 1008) (Json.jstr "Karachi")
    (Or.inl rfl) (by decide) rfl rfl rfl rfl rfl rfl rfl rfl rfl rfl rfl rfl

/-- C5 counterexample: for `unit = "imperial"` the output still carries
the metric labels `°C` and `m/s`, and no imperial label (`°F`, `mph`),
so the unit labels do not correspond to the requested unit system. -/
theorem imperial_unit_metric_labels_counterexample :
    get_weather "key" "Miami" "imperial"
      (HttpOutcome.response 200 "OK" "u"
        (Json.jobj [("cod", Json.jint 200),
          ("weather", Json.jarr [Json.jobj [("description", Json.jstr "clear sky")]]),
          ("main", Json.jobj [("temp", Json.jfloat "87.5"), ("feels_like", Json.jfloat "92.0"),
            ("humidity", Json.jint 60), ("pressure", Json.jint 1012)]),
          ("wind", Json.jobj [("speed", Json.jfloat "6.9")]),
          ("name", Json.jstr "Miami")])) =
      Except.ok ("Weather in Miami:\n- Temperature: 87.5°C (feels like 92.0°C)\n" ++
        "- Conditions: clear sky\n- Humidity: 60%\n- Wind speed: 6.9 m/s\n" ++
        "- Pressure: 1012 hPa\n\nStay tuned for personalized weather suggestions!") ∧
    strContains ("Weather in Miami:\n- Temperature: 87.5°C (feels like 92.0°C)\n" ++
        "- Conditions: clear sky\n- Humidity: 60%\n- Wind speed: 6.9 m/s\n" ++
        "- Pressure: 1012 hPa\n\nStay tuned for personalized weather suggestions!")
      "°C" = true ∧
    strContains ("Weather in Miami:\n- Temperature: 87.5°C (feels like 92.0°C)\n" ++
        "- Conditions: clear sky\n- Humidity: 60%\n- Wind speed: 6.9 m/s\n" ++
        "- Pressure: 1012 hPa\n\nStay tuned for personalized weather suggestions!")
      " m/s" = true ∧
    strContains ("Weather in Miami:\n- Temperature: 87.5°C (feels like 92.0°C)\n" ++
        "- Conditions: clear sky\n- Humidity: 60%\n- Wind speed: 6.9 m/s\n" ++
        "- Pressure: 1012 hPa\n\nStay tuned for personalized weather suggestions!")
      "°F" = false ∧
    strContains ("Weather in Miami:\n- Temperature: 87.5°C (feels like 92.0°C)\n" ++
        "- Conditions: clear sky\n- Humidity: 60%\n- Wind speed: 6.9 m/s\n" ++
        "- Pressure: 1012 hPa\n\nStay tuned for personalized weather suggestions!")
      "mph" = false :=
  ⟨rfl, by decide, by decide, by decide, by decide⟩

/-- C6: after N consecutive successful turns from a fresh session the
stored history is exactly the interleaving of user and assistant turns
in order, has length 2N, and on every turn the history handed to the
agent is the full stored history plus the new user turn. -/
theorem history_after_success_turns (ts : List (String × String)) :
    runSuccessTurns [] ts =
      ts.flatMap
        (fun p => [{ role := Role.user, content := p.1 },
                   { role := Role.assistant, content := p.2 }]) ∧
    (runSuccessTurns [] ts).length = 2 * ts.length ∧
    (∀ (h : List Turn) (m r : String),
      (mainStep h m (AgentOutcome.success r)).sentToAgent =
        h ++ [{ role := Role.user, content := m }]) := by
  refine ⟨by simpa using runSuccessTurns_eq ts [], ?_, fun h m r => rfl⟩
  rw [runSuccessTurns_eq ts []]
  simpa using flatMapTwo_length ts

/-- C7 (corrected): when the agent round trip fails on a turn whose
stored history was non-empty, the stored history grows by exactly the
user turn, and the user-visible message is `"Error: "` plus the
exception text.  When the stored history was empty (the first turn of a
session), `history or []` produced a fresh list that is never written
back, so the stored history stays empty
(see `first_turn_failure_keeps_history_empty`). -/
theorem failed_turn_nonempty_history (stored : List Turn) (m e : String)
    (hne : stored ≠ []) :
    (mainStep stored m (AgentOutcome.failure e)).stored =
      stored ++ [{ role := Role.user, content := m }] ∧
    (mainStep stored m (AgentOutcome.failure e)).stored.length = stored.length + 1 ∧
    (mainStep stored m (AgentOutcome.failure e)).visible = "Error: " ++ e := by
  cases stored with
  | nil => exact absurd rfl hne
  | cons a as => exact ⟨rfl, by simp [mainStep], rfl⟩

/-- C7 witness: a failing turn over a two-turn history stores exactly one
extra user turn and surfaces the error text. -/
theorem failed_turn_nonempty_history_witness :
    (mainStep [{ role := Role.user, content := "hi" },
               { role := Role.assistant, content := "hello" }]
        "weather in Paris?" (AgentOutcome.failure "boom")).stored =
      [{ role := Role.user, content := "hi" },
       { role := Role.assistant, content := "hello" },
       { role := Role.user, content := "weather in Paris?" }] ∧
    (mainStep [{ role := Role.user, content := "hi" },
               { role := Role.assistant, content := "hello" }]
        "weather in Paris?" (AgentOutcome.failure "boom")).stored.length = 2 + 1 ∧
    (mainStep [{ role := Role.user, content := "hi" },
               { role := Role.assistant, content := "hello" }]
        "weather in Paris?" (AgentOutcome.failure "boom")).visible = "Error: boom" := by
  exact failed_turn_nonempty_history _ _ _ (by decide)

/-- C7 counterexample: a failing first turn leaves the stored history at
length 0, not 0 + 1, because the fresh working list is never stored. -/
theorem first_turn_failure_keeps_history_empty :
    (mainStep [] "weather in Paris?" (AgentOutcome.failure "boom")).stored = [] ∧
    (mainStep [] "weather in Paris?" (AgentOutcome.failure "boom")).stored.length ≠
      ([] : List Turn).length + 1 ∧
    (mainStep [] "weather in Paris?" (AgentOutcome.failure "boom")).visible = "Error: boom" := by
  exact ⟨rfl, by decide, rfl⟩

/-- C8: on a failed turn the stored history gains at most the user turn:
every appended entry has role user and carries the incoming message, no
assistant turn and no error text is appended, and the error text goes to
the user interface only. -/
theorem failed_turn_appends_no_assistant (stored : List Turn) (m e : String) :
    ((mainStep stored m (AgentOutcome.failure e)).stored = stored ∨
      (mainStep stored m (AgentOutcome.failure e)).stored =
        stored ++ [{ role := Role.user, content := m }]) ∧
    (∀ t ∈ (mainStep stored m (AgentOutcome.failure e)).stored.drop stored.length,
      t.role = Role.user ∧ t.content = m) ∧
    (mainStep stored m (AgentOutcome.failure e)).visible = "Error: " ++ e := by
  cases stored with
  | nil =>
    refine ⟨Or.inl rfl, ?_, rfl⟩
    intro t ht
    simp [mainStep] at ht
  | cons a as =>
    refine ⟨Or.inr rfl, ?_, rfl⟩
    intro t ht
    have hd : ((a :: as) ++ [({ role := Role.user, content := m } : Turn)]).drop
        (a :: as).length = [({ role := Role.user, content := m } : Turn)] :=
      List.drop_left _ _
    rw [show (mainStep (a :: as) m (AgentOutcome.failure e)).stored =
        (a :: as) ++ [({ role := Role.user, content := m } : Turn)] from rfl, hd] at ht
    simp at ht
    subst ht
    exact ⟨rfl, rfl⟩

/-- C9: when either required secret is absent from the environment,
startup raises the module-level `ValueError` and never produces a
session-accepting state. -/
theorem missing_secret_aborts (gemini weather : Option String)
    (h : gemini = none ∨ weather = none) :
    ∃ msg, startup gemini weather = Except.error msg := by
  rcases h with h | h
  · subst h
    exact ⟨"GEMINI_API_KEY is missing in the .env file.", rfl⟩
  · subst h
    cases gemini with
    | none => exact ⟨"GEMINI_API_KEY is missing in the .env file.", rfl⟩
    | some s =>
      cases hs : s.isEmpty with
      | true =>
        refine ⟨"GEMINI_API_KEY is missing in the .env file.", ?_⟩
        simp [startup, validateConfig, pyTruthy, hs]
      | false =>
        refine ⟨"WEATHER_API_KEY is missing in the .env file.", ?_⟩
        simp [startup, validateConfig, pyTruthy, hs]

/-- C9 witness: without the LLM key, startup errors. -/
theorem missing_secret_aborts_witness :
    ∃ msg, startup none (some "weather-key") = Except.error msg :=
  missing_secret_aborts none (some "weather-key") (Or.inl rfl)

/-- C10: there are responses with HTTP status 200 and `cod = 200` but a
missing required field on which `get_weather` raises an uncaught
exception instead of returning a string: a missing `main` object raises
`KeyError`, an empty `weather` array raises `IndexError`, and a missing
`name` raises `KeyError`. -/
theorem success_status_missing_fields_raise :
    get_weather "key" "Karachi" "metric"
      (HttpOutcome.response 200 "OK" "u" (Json.jobj [("cod", Json.jint 200)])) =
      Except.error (PyExc.keyError "main") ∧
    get_weather "key" "Karachi" "metric"
      (HttpOutcome.response 200 "OK" "u"
        (Json.jobj [("cod", Json.jint 200),
          ("main", Json.jobj [("temp", Json.jfloat "30.5"), ("feels_like", Json.jfloat "33.0"),
            ("humidity", Json.jint 40), ("pressure", Json.jint 1008)]),
          ("weather", Json.jarr []),
          ("wind", Json.jobj [("speed", Json.jfloat "3.1")]),
          ("name", Json.jstr "Karachi")])) =
      Except.error PyExc.indexError ∧
    get_weather "key" "Karachi" "metric"
      (HttpOutcome.response 200 "OK" "u"
        (Json.jobj [("cod", Json.jint 200),
          ("main", Json.jobj [("temp", Json.jfloat "30.5"), ("feels_like", Json.jfloat "33.0"),
            ("humidity", Json.jint 40), ("pressure", Json.jint 1008)]),
          ("weather", Json.jarr [Json.jobj [("description", Json.jstr "clear sky")]]),
          ("wind", Json.jobj [("speed", Json.jfloat "3.1")])])) =
      Except.error (PyExc.keyError "name") :=
  ⟨rfl, rfl, rfl⟩

end WeatherAgent
